import Mathlib

set_option maxRecDepth 40000

/-!
Shallow embedding of the TablueaToPowerBIArtifacts generator pipeline
(src/scripts/generate_pbi_artifacts_prod.py, generate_te3_script.py,
visualspec_to_reportjson.py, generate_parsed_meta.py) and proofs about it.

Python strings are modelled as Lean `String` (lists of characters); `None`
values flowing through `dict.get` are modelled as `Option String`.  Python
truthiness on strings/optionals (`if not x`) is emptiness/absence.
-/

namespace Tab2Pbi

/-- Python `str` truthiness of an optional string: `None` and `""` are falsy. -/
def truthyOpt : Option String → Bool
  | none => false
  | some s => !(s == "")

/-- Python `a or b` on optional strings: returns `a` when truthy, else `b`
(`b` is returned raw, even when falsy, like the last operand of `or`). -/
def pyOr (a b : Option String) : Option String :=
  match a with
  | none => b
  | some s => if s = "" then b else a

/-- Python `x or d` where `d : String` is the final default. -/
def pyOrStr (a : Option String) (d : String) : String :=
  match a with
  | none => d
  | some s => if s = "" then d else s

/-- ASCII whitespace stripped by Python `str.strip()`. -/
def isPySpace (c : Char) : Bool :=
  c == ' ' || c == '\t' || c == '\n' || c == '\x0d' || c == '\x0b' || c == '\x0c'

/-- `str.strip()` on a character list: drop whitespace from both ends. -/
def stripL (l : List Char) : List Char :=
  ((l.dropWhile isPySpace).reverse.dropWhile isPySpace).reverse

/-- `str.strip()` on strings. -/
def pyStrip (s : String) : String :=
  ⟨stripL s.data⟩

/-- A character accepted by the sanitizer regex class `[0-9A-Za-z_]`. -/
def isSafeChar (c : Char) : Bool :=
  c.isAlphanum || c == '_'

/-- Python `str.isdigit()` (ASCII fragment): non-empty and all digits.
After regex substitution only ASCII remains, so this coincides with the
source semantics where it is applied. -/
def pyIsDigitL (l : List Char) : Bool :=
  !l.isEmpty && l.all (·.isDigit)

/-- `str.lower()` restricted to ASCII (matches the type strings the code
compares against). -/
def pyLower (s : String) : String :=
  ⟨s.data.map Char.toLower⟩

/-- Is `p` a prefix of `l`?  (substring machinery for Python `in`). -/
def listPre : List Char → List Char → Bool
  | [], _ => true
  | _ :: _, [] => false
  | a :: as, b :: bs => a == b && listPre as bs

/-- Is `p` a contiguous substring of `l`?  Models Python `p in l`. -/
def listSub : List Char → List Char → Bool
  | p, [] => p.isEmpty
  | p, c :: cs => listPre p (c :: cs) || listSub p cs

/-- Python `needle in hay` for strings (substring containment). -/
def strContainsB (needle hay : String) : Bool :=
  listSub needle.data hay.data

/-- The strip-and-substitute part of `safe_id` from
src/scripts/generate_pbi_artifacts_prod.py (lines 72-73): strip, spaces to
underscores, every character outside `[0-9A-Za-z_]` to underscore. -/
def safe_id_core (l : List Char) : List Char :=
  ((stripL l).map (fun c => if c == ' ' then '_' else c)).map
    (fun c => if isSafeChar c then c else '_')

/-- `safe_id` from src/scripts/generate_pbi_artifacts_prod.py (lines 69-76):
empty input gives "unnamed"; else strip and substitute; a wholly-digit
result gets an underscore prefix. -/
def safe_id (name : String) : String :=
  if name.data = [] then "unnamed"
  else if pyIsDigitL (safe_id_core name.data) then ⟨'_' :: safe_id_core name.data⟩
  else ⟨safe_id_core name.data⟩

/-- `safe_id(name)` where the caller passes a possibly-`None` value
(`dict.get`): Python `if not name` treats `None` exactly like `""`. -/
def safe_idO (name : Option String) : String :=
  safe_id (name.getD "")

/-- The strip-and-substitute part of `safe_id` from
src/scripts/generate_te3_script.py (lines 39-41): strip, every character
outside `[0-9A-Za-z_ ]` to underscore, then spaces to underscores. -/
def safe_id_te3_core (l : List Char) : List Char :=
  ((stripL l).map (fun c => if isSafeChar c || c == ' ' then c else '_')).map
    (fun c => if c == ' ' then '_' else c)

/-- `safe_id` from src/scripts/generate_te3_script.py (lines 35-44):
empty input gives "Unnamed"; else strip and substitute; a result fully
matching `\d+` gets an underscore prefix. -/
def safe_id_te3 (name : String) : String :=
  if name.data = [] then "Unnamed"
  else if pyIsDigitL (safe_id_te3_core name.data) then ⟨'_' :: safe_id_te3_core name.data⟩
  else ⟨safe_id_te3_core name.data⟩

/-- `normalize_type` from generate_pbi_artifacts_prod.py (lines 78-90).
The argument is the raw value of `column.get("type")`, so it may be absent. -/
def normalize_type (t : Option String) : String :=
  match t with
  | none => "String"
  | some s =>
    if s = "" then "String"
    else
      let t := pyLower s
      if t = "int" ∨ t = "integer" ∨ t = "long" then "Int64"
      else if t = "float" ∨ t = "double" ∨ t = "decimal" ∨ t = "real" then "Double"
      else if strContainsB "date" t then "DateTime"
      else if strContainsB "bool" t then "Boolean"
      else "String"

/-- Errors of the Power Query generator (generate_pbi_artifacts_prod.py
lines 95-140): the `raise ValueError(f"Unsupported sourceType: {...}")` on
an unknown tag, and Python `KeyError` from `cfg[...]` on a missing key. -/
inductive PQError where
  | unsupportedSourceType (tag : String)
  | keyError (key : String)
deriving DecidableEq

/-- `cfg[k]` on the source-config dict: value or `KeyError`. -/
def getKey (cfg : List (String × String)) (k : String) : Except PQError String :=
  match cfg.lookup k with
  | some v => .ok v
  | none => .error (.keyError k)

/-- The fixed excel connector expression (lines 97-108). -/
def excelExpr (url sheet : String) : String :=
  "\nlet\n    Source = Excel.Workbook(\n        Web.Contents(\"" ++ url ++
  "\"),\n        null,\n        true\n    ),\n    Data = Source\x7b[Item=\"" ++ sheet ++
  "\",Kind=\"Sheet\"]\x7d[Data],\n    PromotedHeaders = Table.PromoteHeaders(Data)\nin\n    PromotedHeaders\n"

/-- The fixed sharepoint connector expression (lines 111-120). -/
def sharepointExpr (site file sheet : String) : String :=
  "\nlet\n    Source = SharePoint.Files(\"" ++ site ++
  "\", [ApiVersion=15]),\n    File = Source\x7b[Name=\"" ++ file ++
  "\"]\x7d[Content],\n    Data = Excel.Workbook(File, null, true),\n    Sheet = Data\x7b[Item=\"" ++ sheet ++
  "\",Kind=\"Sheet\"]\x7d[Data],\n    PromotedHeaders = Table.PromoteHeaders(Sheet)\nin\n    PromotedHeaders\n"

/-- The fixed sql connector expression (lines 123-129). -/
def sqlExpr (server database schema table : String) : String :=
  "\nlet\n    Source = Sql.Database(\"" ++ server ++ "\", \"" ++ database ++
  "\"),\n    Table = Source\x7b[Schema=\"" ++ schema ++ "\",Item=\"" ++ table ++
  "\"]\x7d[Data]\nin\n    Table\n"

/-- The fixed fabric connector expression (lines 132-138). -/
def fabricExpr (workspace lakehouse table : String) : String :=
  "\nlet\n    Source = Fabric.Warehouse(\"" ++ workspace ++ "\", \"" ++ lakehouse ++
  "\"),\n    Table = Source\x7b[Schema=\"dbo\",Item=\"" ++ table ++
  "\"]\x7d[Data]\nin\n    Table\n"

/-- `generate_powerquery` (generate_pbi_artifacts_prod.py lines 95-140).
Config keys are read in the f-string evaluation order of the source. -/
def generate_powerquery (source_type : String) (cfg : List (String × String)) :
    Except PQError String :=
  if source_type = "excel" then do
    let url ← getKey cfg "url"
    let sheet ← getKey cfg "sheet"
    pure (excelExpr url sheet)
  else if source_type = "sharepoint" then do
    let site ← getKey cfg "site"
    let file ← getKey cfg "file"
    let sheet ← getKey cfg "sheet"
    pure (sharepointExpr site file sheet)
  else if source_type = "sql" then do
    let server ← getKey cfg "server"
    let database ← getKey cfg "database"
    let schema ← getKey cfg "schema"
    let table ← getKey cfg "table"
    pure (sqlExpr server database schema table)
  else if source_type = "fabric" then do
    let workspace ← getKey cfg "workspace"
    let lakehouse ← getKey cfg "lakehouse"
    let table ← getKey cfg "table"
    pure (fabricExpr workspace lakehouse table)
  else .error (.unsupportedSourceType source_type)

/-- A relationship record as produced by the parser / consumed by the TE3
generator; all fields come from `dict.get`, so each may be absent. -/
structure Rel where
  from_table : Option String
  from_column : Option String
  to_table : Option String
  to_column : Option String
  cardinality : Option String
deriving DecidableEq

/-- The first skip comment of `gen_relationship_block` (line 137). -/
def skipMissingElems : String := "// Skipped invalid relationship (missing elements)\n"

/-- The second skip comment of `gen_relationship_block` (line 144). -/
def skipTableNotFound : String := "// Skipped relationship (table not found)\n"

/-- `gen_relationship_block` (generate_te3_script.py lines 126-156).
`if not ft or not fc or not tt or not tc` is Python truthiness, so `None`
and `""` both trigger the first skip. -/
def gen_relationship_block (rel : Rel) (table_names : List String) : String :=
  if ¬(truthyOpt rel.from_table = true ∧ truthyOpt rel.from_column = true ∧
       truthyOpt rel.to_table = true ∧ truthyOpt rel.to_column = true) then
    skipMissingElems
  else
    let ft := rel.from_table.getD ""
    let fc := rel.from_column.getD ""
    let tt := rel.to_table.getD ""
    let tc := rel.to_column.getD ""
    if ft ∉ table_names ∨ tt ∉ table_names then
      skipTableNotFound
    else
      "// ---- Relationship: " ++ ft ++ "." ++ fc ++ " → " ++ tt ++ "." ++ tc ++
      " ----\n" ++ "Model.AddRelationship" ++ "(tbl_" ++ safe_id ft ++ ", \"" ++ fc ++
      "\", tbl_" ++ safe_id tt ++ ", \"" ++ tc ++ "\");" ++ "\n"

/-- A parsed column record (`{"name": ..., "type": ...}`), both values from
`dict.get`. -/
structure PColumn where
  name : Option String
  type : Option String
deriving DecidableEq

/-- A parsed table record. -/
structure PTable where
  name : Option String
  columns : List PColumn
deriving DecidableEq

/-- A parsed measure record (`{"name": ..., "expression": ...}`). -/
structure PMeasure where
  name : Option String
  expression : Option String
deriving DecidableEq

/-- A visual inside a worksheet page, as consumed by
visualspec_to_reportjson.py: `v["type"]` and `v["fields"]` are indexed
directly (required), `v.get("title")` may be absent. -/
structure Visual where
  vtype : String
  title : Option String
  fields : List String
deriving DecidableEq

/-- A worksheet page: `page["name"]` and `page["visuals"]` are required. -/
structure Page where
  name : String
  visuals : List Visual
deriving DecidableEq

/-- The slice of a parsed_meta.json document used by `generate_artifacts`. -/
structure ParsedMeta where
  tables : List PTable
  relationships : List Rel
  worksheets : List Page
  measures : List PMeasure
deriving DecidableEq

/-- A ModelSpec column: raw name passed through, type normalized
(generate_pbi_artifacts_prod.py lines 170-174). -/
structure MColumn where
  name : Option String
  type : String
deriving DecidableEq

/-- A ModelSpec table with sanitized name (lines 175-178). -/
structure MTable where
  name : String
  columns : List MColumn
deriving DecidableEq

/-- The ModelSpec document written by `generate_artifacts` (lines 180-185).
Its keys are exactly reportId, generatedAt, tables, relationships. -/
structure ModelSpec where
  reportId : String
  generatedAt : String
  tables : List MTable
  relationships : List Rel
deriving DecidableEq

/-- The ModelSpec construction inside `generate_artifacts`
(generate_pbi_artifacts_prod.py lines 167-185), with the report id and the
timestamp as explicit parameters (`REPORT_ID` env var, `datetime.now`). -/
def build_model_spec (pm : ParsedMeta) (report_id generated_at : String) : ModelSpec :=
  { reportId := report_id
    generatedAt := generated_at
    tables := pm.tables.map (fun t =>
      { name := safe_idO t.name
        columns := t.columns.map (fun c => { name := c.name, type := normalize_type c.type }) })
    relationships := pm.relationships }

/-- The visual-spec document written by `generate_artifacts` (lines 204-208):
pages are the parsed worksheets, verbatim. -/
structure VisualSpec where
  reportId : String
  generatedAt : String
  pages : List Page
deriving DecidableEq

/-- Visual-spec construction (generate_pbi_artifacts_prod.py lines 204-208). -/
def build_visual_spec (pm : ParsedMeta) (report_id generated_at : String) : VisualSpec :=
  { reportId := report_id, generatedAt := generated_at, pages := pm.worksheets }

/-- One entry of a layout visual's `prototypeQuery.Select` list
(visualspec_to_reportjson.py lines 17-22). -/
structure SelectField where
  entity : String
  property : String
deriving DecidableEq

/-- A layout `visualContainer` record (the dict returned by `make_visual`). -/
structure LVisual where
  name : String
  visualType : String
  title : String
  fromName : String
  fromEntity : String
  select : List SelectField
deriving DecidableEq

/-- A layout `section` record (visualspec_to_reportjson.py lines 60-64). -/
structure Section where
  name : String
  displayName : String
  visualContainers : List LVisual
deriving DecidableEq

/-- The layout report document (lines 45-49): keys version, config
(`layoutOptimization`), sections.  It has no generatedAt field. -/
structure Report where
  version : String
  layoutOptimization : Nat
  sections : List Section
deriving DecidableEq

/-- `make_visual` (visualspec_to_reportjson.py lines 9-39), with the
`uuid.uuid4()` value supplied as the `vis_id` parameter.  Fields containing
a literal "." are skipped; the rest are bound to the dataset entity. -/
def make_visual (v : Visual) (dataset_name vis_id : String) : LVisual :=
  { name := vis_id
    visualType :=
      if v.vtype = "Table" then "tableEx"
      else if v.vtype = "PieChart" then "pieChart"
      else "tableEx"
    title := pyOrStr v.title ""
    fromName := "a"
    fromEntity := dataset_name
    select := (v.fields.filter (fun f => !(f.data.any (· == '.')))).map
      (fun f => { entity := dataset_name, property := f }) }

/-- The per-page visual loop of `generate_report_json` (lines 54-58):
visuals with an empty field list are dropped; each survivor consumes one
uuid from the supply `u` (indexed by a running counter).  Returns the
containers and the next counter value. -/
def genVisuals (dataset_name : String) (u : Nat → String) :
    Nat → List Visual → List LVisual × Nat
  | k, [] => ([], k)
  | k, v :: vs =>
    if v.fields.isEmpty then genVisuals dataset_name u k vs
    else
      let rest := genVisuals dataset_name u (k + 1) vs
      (make_visual v dataset_name (u k) :: rest.1, rest.2)

/-- The page loop of `generate_report_json` (lines 51-65): every page yields
one section whose `name` is a fresh uuid. -/
def genSections (dataset_name : String) (u : Nat → String) :
    Nat → List Page → List Section
  | _, [] => []
  | k, p :: ps =>
    let r := genVisuals dataset_name u (k + 1) p.visuals
    { name := u k, displayName := p.name, visualContainers := r.1 } ::
      genSections dataset_name u r.2 ps

/-- `generate_report_json` (visualspec_to_reportjson.py lines 41-65) as a
pure document transformer; the uuid4 stream is the parameter `u`. -/
def generate_report_json (vs : VisualSpec) (dataset_name : String) (u : Nat → String) : Report :=
  { version := "1.13.0", layoutOptimization := 1,
    sections := genSections dataset_name u 0 vs.pages }

/-- `map_datatype` (generate_te3_script.py lines 47-62). -/
def map_datatype (dt : Option String) : String :=
  match dt with
  | none => "DataType.String"
  | some s =>
    if s = "" then "DataType.String"
    else
      let t := pyLower s
      if t = "int64" ∨ t = "integer" ∨ t = "int" ∨ t = "long" then "DataType.Int64"
      else if t = "double" ∨ t = "float" ∨ t = "decimal" ∨ t = "real" ∨ t = "number" then
        "DataType.Double"
      else if strContainsB "date" t then "DataType.DateTime"
      else if strContainsB "bool" t then "DataType.Boolean"
      else "DataType.String"

/-- Python `s.replace('"', '\\"')`: escape every double quote. -/
def escQuote (s : String) : String :=
  ⟨(s.data.map (fun c => if c == '"' then ['\\', '"'] else [c])).flatten⟩

/-- `"\n".join(l)`. -/
def joinNL : List String → String
  | [] => ""
  | [s] => s
  | s :: rest => s ++ "\n" ++ joinNL rest

/-- Python `str.replace` on character lists: replace non-overlapping
occurrences of `needle` left to right, continuing after each replacement.
The fuel argument (instantiated with the length of the haystack, an upper
bound on the number of scan steps) only makes the recursion structural. -/
def replaceFuel (needle repl : List Char) : Nat → List Char → List Char
  | _, [] => []
  | 0, l => l
  | fuel + 1, c :: cs =>
    if listPre needle (c :: cs) && !needle.isEmpty then
      repl ++ replaceFuel needle repl fuel ((c :: cs).drop needle.length)
    else c :: replaceFuel needle repl fuel cs

/-- Python `hay.replace(needle, repl)` for a non-empty needle (the only way
the source uses it: the three fixed placeholders). -/
def pyReplace (hay needle repl : String) : String :=
  ⟨replaceFuel needle.data repl.data hay.data.length hay.data⟩

/-- A column of a ModelSpec document as read back by generate_te3_script.py:
`col["name"]` is required, `col.get("type")` optional. -/
structure TCol where
  name : String
  type : Option String
deriving DecidableEq

/-- A table of a ModelSpec document as read back: `table["name"]` required. -/
structure TTable where
  name : String
  columns : List TCol
deriving DecidableEq

/-- A measure as read back by generate_te3_script.py: `m["name"]` and
`m["expression"]` are both indexed directly (expression may be null). -/
structure TMeasure where
  name : String
  expression : Option String
deriving DecidableEq

/-- The JSON document `generate_script` loads (`ms` in the source): it reads
`ms.get("tables", [])`, `ms.get("measures", [])`, `ms.get("relationships", [])`. -/
structure MsDoc where
  reportId : String
  tables : List TTable
  measures : List TMeasure
  relationships : List Rel
deriving DecidableEq

/-- `gen_table_block` (generate_te3_script.py lines 69-96). -/
def gen_table_block (t : TTable) : String :=
  let tname := t.name
  let tname_safe := safe_id tname
  joinNL
    (["// ---- Table: " ++ tname ++ " ----",
      "var tbl_" ++ tname_safe ++ " = Model.Tables.Find(\"" ++ tname ++
        "\") ?? Model.AddTable(\"" ++ tname ++ "\");"] ++
     t.columns.map (fun col =>
       let cname_safe := escQuote col.name
       let ctype := map_datatype col.type
       "if (!tbl_" ++ tname_safe ++ ".Columns.Contains(\"" ++ cname_safe ++ "\")) \x7b " ++
       "var c = tbl_" ++ tname_safe ++ ".AddDataColumn(\"" ++ cname_safe ++ "\"); " ++
       "c.DataType = " ++ ctype ++ "; " ++
       "LogInfo(\"Added column: " ++ cname_safe ++ " (" ++ ctype ++ ")\"); \x7d") ++
     [""])

/-- `gen_measure_block` (generate_te3_script.py lines 99-123). -/
def gen_measure_block (m : TMeasure) : String :=
  let name := m.name
  let expr := pyOrStr m.expression ("// TODO: Define expression for " ++ name)
  let name_safe := escQuote name
  let expr_safe := escQuote expr
  joinNL
    ["// ---- Measure: " ++ name ++ " ----",
     "var m = Model.AllMeasures.FirstOrDefault(x => x.Name == \"" ++ name_safe ++ "\");",
     "if (m == null) \x7b",
     "    m = Model." ++ "AddMeasure(\"" ++ name_safe ++ "\", \"" ++ expr_safe ++ "\");",
     "    LogInfo($\"Created measure: \x7bm.Name\x7d\");",
     "\x7d else \x7b",
     "    m.Expression = \"" ++ expr_safe ++ "\";",
     "    LogInfo($\"Updated measure: \x7bm.Name\x7d\");",
     "\x7d",
     ""]

/-- The pure core of `generate_script` (generate_te3_script.py
lines 175-208): render the three block lists and substitute them into the
template placeholders. -/
def generate_script_text (ms : MsDoc) (template : String) : String :=
  let table_names := ms.tables.map (fun t => t.name)
  let tables_code := joinNL (ms.tables.map gen_table_block)
  let measures_code := joinNL (ms.measures.map gen_measure_block)
  let relationships_code :=
    joinNL (ms.relationships.map (fun r => gen_relationship_block r table_names))
  pyReplace (pyReplace (pyReplace template "\x7b\x7bTABLES\x7d\x7d" tables_code)
      "\x7b\x7bMEASURES\x7d\x7d" measures_code)
    "\x7b\x7bRELATIONSHIPS\x7d\x7d" relationships_code

/-- The ModelSpec document of `generate_artifacts`, as seen by
`generate_script` after the json round trip.  The dict written at
lines 180-185 of generate_pbi_artifacts_prod.py has keys reportId,
generatedAt, tables, relationships only, so `ms.get("measures", [])`
always yields the empty list.  (A null column name would crash the Python
script generator; it is mapped to "" here and never exercised.) -/
def modelSpecToDoc (m : ModelSpec) : MsDoc :=
  { reportId := m.reportId
    tables := m.tables.map (fun t =>
      { name := t.name
        columns := t.columns.map (fun c => { name := c.name.getD "", type := some c.type }) })
    measures := []
    relationships := m.relationships }

/-- An XML element as seen through lxml with namespace-agnostic lookups:
local tag name, attributes, own text, children in document order. -/
inductive XNode where
  | node (tag : String) (attrs : List (String × String)) (text : Option String)
      (children : List XNode)

/-- Local tag name. -/
def XNode.tag : XNode → String
  | .node t _ _ _ => t

/-- Attribute list. -/
def XNode.attrs : XNode → List (String × String)
  | .node _ a _ _ => a

/-- Own text content. -/
def XNode.text : XNode → Option String
  | .node _ _ x _ => x

/-- Child elements in document order. -/
def XNode.children : XNode → List XNode
  | .node _ _ _ cs => cs

/-- `node.get(k)` on an lxml element: attribute value or `None`. -/
def XNode.get (n : XNode) (k : String) : Option String :=
  n.attrs.lookup k

/-- `text_of` (generate_parsed_meta.py lines 69-72) on a present node:
`(node.text or "").strip()`. -/
def text_of (n : XNode) : String :=
  pyStrip (n.text.getD "")

/-- The column-like local names of the pass-1 xpath (line 167). -/
def isColTag (t : String) : Bool :=
  t == "column" || t == "column-instance" || t == "column-group" || t == "column-definition"

/-- The datasource local names of the ancestor xpath (line 170). -/
def isDsTag (t : String) : Bool :=
  t == "datasource" || t == "data-source"

/-- One pass-1 column occurrence, after name resolution: owning table key,
resolved column name, raw type. -/
structure ColEntry where
  table : String
  name : String
  type : Option String
deriving DecidableEq

/-- The per-column body of the pass-1 loop (generate_parsed_meta.py
lines 168-191), given `ds` = the first element of the `ancestor::datasource`
node set (document order, hence the outermost such ancestor), or `none`
when that set is empty.  Returns `none` when the column name chain is
falsy (`continue`). -/
def mkColEntry (ds : Option XNode) (col : XNode) : Option ColEntry :=
  let table_name : Option String :=
    match ds with
    | some d => pyOr (col.get "table") (pyOr (d.get "name") (d.get "caption"))
    | none => none
  let col_name := pyOr (col.get "caption")
    (pyOr (col.get "name") (pyOr (col.get "column-name") (some (text_of col))))
  match col_name with
  | none => none
  | some s =>
    if s = "" then none
    else
      some { table := match table_name with
               | none => "_unnamed"
               | some t => if t = "" then "_unnamed" else t
             name := s
             type := pyOr (col.get "datatype") (pyOr (col.get "type") (col.get "data-type")) }

/-- When descending into the children of `n`, the outermost datasource
ancestor becomes `n` itself if there was none yet and `n` is a datasource. -/
def childDs (ds : Option XNode) (n : XNode) : Option XNode :=
  match ds with
  | some d => some d
  | none => if isDsTag n.tag then some n else none

mutual

/-- Pass 1 of `extract_tables_and_columns` over one subtree: collect the
entries of every column-like node, `ds` being the outermost datasource
ancestor of the subtree root `n` (strictly above `n`). -/
def collectCols (ds : Option XNode) : XNode → List ColEntry
  | .node t a x cs =>
    (if isColTag t then (mkColEntry ds (.node t a x cs)).toList else []) ++
      collectColsL (childDs ds (.node t a x cs)) cs

/-- Pass 1 over a forest of siblings. -/
def collectColsL (ds : Option XNode) : List XNode → List ColEntry
  | [] => []
  | c :: cs => collectCols ds c ++ collectColsL ds cs

end

mutual

/-- All elements of a subtree including its root, in document order
(the order lxml xpath returns node sets in). -/
def descs : XNode → List XNode
  | .node t a x cs => .node t a x cs :: descsL cs

/-- All elements of a forest, in document order. -/
def descsL : List XNode → List XNode
  | [] => []
  | c :: cs => descs c ++ descsL cs

end

/-- The table dictionary of `extract_tables_and_columns`, as an
insertion-ordered association list (Python dicts preserve insertion order). -/
structure TableRec where
  name : String
  columns : List (String × Option String)
deriving DecidableEq

/-- Lines 184-191: create the table bucket on first sight, then append the
column record to it. -/
def addCol (tables : List TableRec) (e : ColEntry) : List TableRec :=
  if tables.any (fun tb => tb.name == e.table) then
    tables.map (fun tb =>
      if tb.name == e.table then { tb with columns := tb.columns ++ [(e.name, e.type)] } else tb)
  else tables ++ [{ name := e.table, columns := [(e.name, e.type)] }]

/-- Pass 2 of `extract_tables_and_columns` (lines 193-206): an explicit
`<table>` node adds a bucket for its truthy name (first sight only) and
appends each named descendant `<column>`. -/
def addExplicitTable (tables : List TableRec) (t : XNode) : List TableRec :=
  let tn := pyOr (t.get "name") (t.get "caption")
  if truthyOpt tn = true then
    let tname := tn.getD ""
    let tables1 :=
      if tables.any (fun tb => tb.name == tname) then tables
      else tables ++ [{ name := tname, columns := [] }]
    ((descsL t.children).filter (fun c => c.tag == "column")).foldl
      (fun acc c =>
        let cname := pyOr (c.get "name") (pyOr (c.get "caption") (some (text_of c)))
        let ctype := pyOr (c.get "datatype") (c.get "type")
        match cname with
        | none => acc
        | some s =>
          if s = "" then acc
          else acc.map (fun tb =>
            if tb.name == tname then { tb with columns := tb.columns ++ [(s, ctype)] } else tb))
      tables1
  else tables

/-- `extract_tables_and_columns` (generate_parsed_meta.py lines 159-208):
pass 1 buckets every resolvable column under its inferred table (or the
"_unnamed" sentinel), pass 2 merges explicit `<table>` nodes; both xpaths
(`.//*`) range over the proper descendants of the root. -/
def extract_tables_and_columns (root : XNode) : List TableRec :=
  let entries := collectColsL (childDs none root) root.children
  let tables := entries.foldl addCol []
  ((descsL root.children).filter (fun n => n.tag == "table")).foldl addExplicitTable tables

mutual

/-- Every column-like proper descendant paired with its full ancestor list
(outermost first), for the specification-level restatement of ownership
inference. -/
def colsWithAnc (anc : List XNode) : XNode → List (List XNode × XNode)
  | .node t a x cs =>
    (if isColTag t then [(anc, XNode.node t a x cs)] else []) ++
      colsWithAncL (anc ++ [XNode.node t a x cs]) cs

/-- Forest version of `colsWithAnc`. -/
def colsWithAncL (anc : List XNode) : List XNode → List (List XNode × XNode)
  | [] => []
  | c :: cs => colsWithAnc anc c ++ colsWithAncL anc cs

end

/-- A ModelSpec document with the generatedAt timestamp field blanked, for
comparisons that exclude it. -/
def ModelSpec.eraseGeneratedAt (m : ModelSpec) : ModelSpec :=
  { m with generatedAt := "" }

/-- A layout visual with its synthesized uuid identifier blanked. -/
def LVisual.eraseId (v : LVisual) : LVisual :=
  { v with name := "" }

/-- A layout section with its own uuid and its visuals' uuids blanked. -/
def Section.eraseIds (s : Section) : Section :=
  { s with name := "", visualContainers := s.visualContainers.map LVisual.eraseId }

/-- A layout report with all synthesized uuid identifiers blanked. -/
def Report.eraseIds (r : Report) : Report :=
  { r with sections := r.sections.map Section.eraseIds }

end Tab2Pbi

namespace Tab2Pbi

theorem map_self_of_fixed {l : List Char} {f : Char → Char} (h : ∀ c, c ∈ l → f c = c) :
    l.map f = l := by
  induction l with
  | nil => rfl
  | cons c cs ih =>
    simp only [List.map_cons, List.cons.injEq]
    exact ⟨h c (by simp), ih (fun d hd => h d (by simp [hd]))⟩

theorem dropWhile_of_none {p : Char → Bool} {l : List Char}
    (h : ∀ c, c ∈ l → p c = false) : l.dropWhile p = l := by
  cases l with
  | nil => rfl
  | cons c cs => simp [List.dropWhile, h c (by simp)]

theorem stripL_of_no_space {l : List Char} (h : ∀ c, c ∈ l → isPySpace c = false) :
    stripL l = l := by
  unfold stripL
  rw [dropWhile_of_none h, dropWhile_of_none (fun c hc => h c (List.mem_reverse.mp hc)),
    List.reverse_reverse]

theorem safe_not_space {c : Char} (h : isSafeChar c = true) : (c == ' ') = false := by
  by_contra hsp
  simp only [Bool.not_eq_false, beq_iff_eq] at hsp
  subst hsp
  exact absurd h (by decide)

theorem all_safe_after_sub (l : List Char) :
    (l.map (fun c => if isSafeChar c then c else '_')).all isSafeChar = true := by
  simp only [List.all_map, List.all_eq_true, Function.comp]
  intro c _
  by_cases h : isSafeChar c = true
  · simp [h]
  · simp only [if_neg h]
    decide

theorem safe_id_all_safe (s : String) : (safe_id s).data.all isSafeChar = true := by
  rw [safe_id]
  by_cases h : s.data = []
  · rw [if_pos h]; decide
  · rw [if_neg h]
    by_cases hd : pyIsDigitL (safe_id_core s.data) = true
    · rw [if_pos hd]
      show List.all ('_' :: safe_id_core s.data) isSafeChar = true
      rw [List.all_cons]
      simp only [all_safe_after_sub, safe_id_core, Bool.and_true]
      decide
    · rw [if_neg hd]
      exact all_safe_after_sub _

theorem safe_id_not_alldigit (s : String) : pyIsDigitL (safe_id s).data = false := by
  rw [safe_id]
  by_cases h : s.data = []
  · rw [if_pos h]; decide
  · rw [if_neg h]
    by_cases hd : pyIsDigitL (safe_id_core s.data) = true
    · rw [if_pos hd]
      show pyIsDigitL ('_' :: safe_id_core s.data) = false
      simp [pyIsDigitL]
    · rw [if_neg hd]
      simpa using hd

theorem te3_core_eq (l : List Char) : safe_id_te3_core l = safe_id_core l := by
  rw [safe_id_te3_core, safe_id_core, List.map_map, List.map_map]
  apply List.map_congr_left
  intro c _
  simp only [Function.comp]
  by_cases hsp : (c == ' ') = true
  · have hc : c = ' ' := by simpa [beq_iff_eq] using hsp
    subst hc; decide
  · by_cases hsafe : isSafeChar c = true
    · simp [hsafe, hsp]
    · simp only [Bool.not_eq_true] at hsafe
      simp [hsafe, hsp]

theorem safe_no_pyspace {c : Char} (h : isSafeChar c = true) : isPySpace c = false := by
  by_contra hsp
  simp only [Bool.not_eq_false] at hsp
  simp only [isPySpace, Bool.or_eq_true, beq_iff_eq] at hsp
  rcases hsp with ((((h1 | h1) | h1) | h1) | h1) | h1 <;> subst h1 <;> exact absurd h (by decide)

theorem mk_data (s : String) : String.mk s.data = s := by
  cases s
  rfl

theorem data_ne_nil {s : String} (h : s ≠ "") : s.data ≠ [] := by
  intro hnil
  apply h
  rw [← mk_data s, hnil]

theorem safe_id_core_fixed {l : List Char} (hall : l.all isSafeChar = true) :
    safe_id_core l = l := by
  rw [List.all_eq_true] at hall
  rw [safe_id_core, stripL_of_no_space (fun c hc => safe_no_pyspace (hall c hc))]
  rw [map_self_of_fixed (l := l) (fun c hc => by rw [safe_not_space (hall c hc)]; rfl)]
  rw [map_self_of_fixed (l := l) (fun c hc => by rw [hall c hc]; rfl)]

theorem safe_id_fixed {r : String} (hr : r.data ≠ [])
    (hall : r.data.all isSafeChar = true) (hdig : pyIsDigitL r.data = false) :
    safe_id r = r := by
  unfold safe_id
  rw [if_neg hr, safe_id_core_fixed hall, hdig]
  simp only [Bool.false_eq_true, if_false, mk_data]

theorem safe_id_te3_all_safe (s : String) : (safe_id_te3 s).data.all isSafeChar = true := by
  rw [safe_id_te3]
  by_cases h : s.data = []
  · rw [if_pos h]; decide
  · rw [if_neg h, te3_core_eq]
    by_cases hd : pyIsDigitL (safe_id_core s.data) = true
    · rw [if_pos hd]
      show List.all ('_' :: safe_id_core s.data) isSafeChar = true
      rw [List.all_cons]
      simp only [safe_id_core, all_safe_after_sub, Bool.and_true]
      decide
    · rw [if_neg hd]
      exact all_safe_after_sub _

theorem safe_id_te3_not_alldigit (s : String) : pyIsDigitL (safe_id_te3 s).data = false := by
  rw [safe_id_te3]
  by_cases h : s.data = []
  · rw [if_pos h]; decide
  · rw [if_neg h, te3_core_eq]
    by_cases hd : pyIsDigitL (safe_id_core s.data) = true
    · rw [if_pos hd]
      show pyIsDigitL ('_' :: safe_id_core s.data) = false
      simp [pyIsDigitL]
    · rw [if_neg hd]
      simpa using hd

theorem safe_id_te3_fixed {r : String} (hr : r.data ≠ [])
    (hall : r.data.all isSafeChar = true) (hdig : pyIsDigitL r.data = false) :
    safe_id_te3 r = r := by
  unfold safe_id_te3
  rw [if_neg hr, te3_core_eq, safe_id_core_fixed hall, hdig]
  simp only [Bool.false_eq_true, if_false, mk_data]

/-- C9 counterexample: a whitespace-only name sanitizes to the empty string,
whose own sanitization is the fallback constant, so neither sanitizer is
idempotent at the one-space input. -/
theorem c9_not_idempotent_on_space :
    safe_id " " = "" ∧ safe_id (safe_id " ") = "unnamed" ∧
      safe_id (safe_id " ") ≠ safe_id " " ∧
      safe_id_te3 (safe_id_te3 " ") ≠ safe_id_te3 " " := by
  decide

/-- C9 (amended): each sanitizer is idempotent on every input that does not
sanitize to the empty string (only non-empty all-whitespace inputs do). -/
theorem c9_sanitizer_idempotent_nonempty (s : String)
    (h1 : safe_id s ≠ "") (h2 : safe_id_te3 s ≠ "") :
    safe_id (safe_id s) = safe_id s ∧ safe_id_te3 (safe_id_te3 s) = safe_id_te3 s :=
  ⟨safe_id_fixed (data_ne_nil h1) (safe_id_all_safe s) (safe_id_not_alldigit s),
   safe_id_te3_fixed (data_ne_nil h2) (safe_id_te3_all_safe s) (safe_id_te3_not_alldigit s)⟩

/-- C9 witness: idempotence at the concrete input "a 1!". -/
theorem c9_sanitizer_idempotent_nonempty_witness :
    safe_id (safe_id "a 1!") = safe_id "a 1!" ∧
      safe_id_te3 (safe_id_te3 "a 1!") = safe_id_te3 "a 1!" :=
  c9_sanitizer_idempotent_nonempty "a 1!" (by decide) (by decide)

/-- C3 counterexample: `safe_id "1a"` is "1a", which starts with the digit
'1' and received no underscore prefix — the underscore prefix is applied
only to wholly-digit results, not to every leading-digit name. -/
theorem c3_leading_digit_preserved :
    safe_id "1a" = "1a" ∧ (safe_id "1a").data.head? = some '1' ∧ '1'.isDigit = true := by
  decide

/-- C3 (amended): the sanitizer's output contains only characters in
`[0-9A-Za-z_]`, and is never a non-empty all-digit string (wholly-digit
results get an underscore prefix); an output may still begin with a digit
when followed by non-digits. -/
theorem c3_sanitizer_charset (s : String) :
    (safe_id s).data.all isSafeChar = true ∧ pyIsDigitL (safe_id s).data = false :=
  ⟨safe_id_all_safe s, safe_id_not_alldigit s⟩

/-- C10 counterexample: on the empty (or missing) name the two sanitizers
disagree — the artifact generator's `safe_id` yields "unnamed" while the
authoring-script generator's yields "Unnamed". -/
theorem c10_sanitizers_differ_on_empty :
    safe_id "" = "unnamed" ∧ safe_id_te3 "" = "Unnamed" ∧ safe_id "" ≠ safe_id_te3 "" := by
  decide

/-- C10 (amended): the two `safe_id` implementations compute the same
function on every non-empty input string; they differ only in the
fallback constant used for empty/missing names. -/
theorem c10_sanitizers_agree_nonempty (s : String) (h : s ≠ "") :
    safe_id s = safe_id_te3 s := by
  have hd : s.data ≠ [] := by
    intro hnil
    apply h
    cases s with
    | mk l => simp_all
  rw [safe_id, safe_id_te3, if_neg hd, if_neg hd, te3_core_eq]

/-- C10 witness: the agreement theorem at the concrete input "a 1!". -/
theorem c10_sanitizers_agree_nonempty_witness : safe_id "a 1!" = safe_id_te3 "a 1!" :=
  c10_sanitizers_agree_nonempty "a 1!" (by decide)

theorem normalize_type_some (s : String) (h : s ≠ "") :
    normalize_type (some s) =
      (if pyLower s = "int" ∨ pyLower s = "integer" ∨ pyLower s = "long" then "Int64"
      else if pyLower s = "float" ∨ pyLower s = "double" ∨ pyLower s = "decimal" ∨
          pyLower s = "real" then "Double"
      else if strContainsB "date" (pyLower s) = true then "DateTime"
      else if strContainsB "bool" (pyLower s) = true then "Boolean"
      else "String") := by
  rw [normalize_type, if_neg h]

/-- C4: type normalization is a total deterministic function into the fixed
five-element enumeration, `None`/empty map to String, and the
case-insensitive rules hold, taken in the declared order (the equality
sets for Int64/Double, then the "date" containment, then the "bool"
containment, else String). -/
theorem c4_normalize_type_total (t : Option String) :
    normalize_type t ∈ (["Int64", "Double", "DateTime", "Boolean", "String"] : List String) ∧
    ((t = none ∨ t = some "") → normalize_type t = "String") ∧
    (∀ s, t = some s →
      ((pyLower s = "int" ∨ pyLower s = "integer" ∨ pyLower s = "long") →
        normalize_type t = "Int64") ∧
      ((pyLower s = "float" ∨ pyLower s = "double" ∨ pyLower s = "decimal" ∨
          pyLower s = "real") → normalize_type t = "Double") ∧
      (strContainsB "date" (pyLower s) = true → normalize_type t = "DateTime") ∧
      (strContainsB "date" (pyLower s) = false → strContainsB "bool" (pyLower s) = true →
        normalize_type t = "Boolean") ∧
      (¬(pyLower s = "int" ∨ pyLower s = "integer" ∨ pyLower s = "long") →
        ¬(pyLower s = "float" ∨ pyLower s = "double" ∨ pyLower s = "decimal" ∨
            pyLower s = "real") →
        strContainsB "date" (pyLower s) = false → strContainsB "bool" (pyLower s) = false →
        normalize_type t = "String")) := by
  match t with
  | none => exact ⟨by simp [normalize_type], fun _ => rfl, fun s hs => by cases hs⟩
  | some s =>
    by_cases hs : s = ""
    · subst hs
      refine ⟨by simp [normalize_type], fun _ => rfl, fun s hs => ?_⟩
      obtain rfl : s = "" := by injection hs with h; exact h.symm
      refine ⟨fun h => ?_, fun h => ?_, fun h => ?_, fun _ h => ?_, fun _ _ _ _ => rfl⟩
      · rcases h with h | h | h <;> exact absurd h (by decide)
      · rcases h with h | h | h | h <;> exact absurd h (by decide)
      · exact absurd h (by decide)
      · exact absurd h (by decide)
    · rw [normalize_type_some s hs]
      constructor
      · split
        · simp
        · split
          · simp
          · split
            · simp
            · split <;> simp
      constructor
      · rintro (h | h)
        · cases h
        · exact absurd h (by simp_all)
      · rintro s2 rfl2
        obtain rfl : s2 = s := by injection rfl2 with h; exact h.symm
        refine ⟨fun h => ?_, fun h => ?_, fun h => ?_, fun hnd h => ?_, fun h1 h2 h3 h4 => ?_⟩
        · rw [if_pos h]
        · rw [if_neg ?_, if_pos h]
          rintro (h1 | h1 | h1) <;> rw [h1] at h <;>
            rcases h with h2 | h2 | h2 | h2 <;> exact absurd h2 (by decide)
        · rw [if_neg ?_, if_neg ?_, if_pos h]
          · rintro (h1 | h1 | h1 | h1) <;> rw [h1] at h <;> exact absurd h (by decide)
          · rintro (h1 | h1 | h1) <;> rw [h1] at h <;> exact absurd h (by decide)
        · rw [if_neg ?_, if_neg ?_, if_neg ?_, if_pos h]
          · rw [hnd]
            rintro h1
            cases h1
          · rintro (h1 | h1 | h1 | h1) <;> rw [h1] at h <;> exact absurd h (by decide)
          · rintro (h1 | h1 | h1) <;> rw [h1] at h <;> exact absurd h (by decide)
        · rw [if_neg h1, if_neg h2, if_neg ?_, if_neg ?_]
          · rw [h4]
            rintro h
            cases h
          · rw [h3]
            rintro h
            cases h

/-- C4 witness: the rule theorem applied at the concrete raw type "Float". -/
theorem c4_normalize_type_total_witness : normalize_type (some "Float") = "Double" :=
  ((c4_normalize_type_total (some "Float")).2.2 "Float" rfl).2.1 (by decide)

/-- C8: `generate_powerquery` yields the UnsupportedSourceType error,
carrying the offending tag, exactly when the source type is none of
excel/sharepoint/sql/fabric; for each supported type with its required
config keys present it returns the fixed connector expression for that
type without any error. -/
theorem c8_powerquery_validation (st : String) (cfg : List (String × String)) :
    (st ∉ (["excel", "sharepoint", "sql", "fabric"] : List String) →
      generate_powerquery st cfg = .error (.unsupportedSourceType st)) ∧
    (∀ tag, generate_powerquery st cfg = .error (.unsupportedSourceType tag) →
      st ∉ (["excel", "sharepoint", "sql", "fabric"] : List String) ∧ tag = st) ∧
    (st = "excel" → ∀ v1 v2, cfg.lookup "url" = some v1 → cfg.lookup "sheet" = some v2 →
      generate_powerquery st cfg = .ok (excelExpr v1 v2)) ∧
    (st = "sharepoint" → ∀ v1 v2 v3, cfg.lookup "site" = some v1 →
      cfg.lookup "file" = some v2 → cfg.lookup "sheet" = some v3 →
      generate_powerquery st cfg = .ok (sharepointExpr v1 v2 v3)) ∧
    (st = "sql" → ∀ v1 v2 v3 v4, cfg.lookup "server" = some v1 →
      cfg.lookup "database" = some v2 → cfg.lookup "schema" = some v3 →
      cfg.lookup "table" = some v4 →
      generate_powerquery st cfg = .ok (sqlExpr v1 v2 v3 v4)) ∧
    (st = "fabric" → ∀ v1 v2 v3, cfg.lookup "workspace" = some v1 →
      cfg.lookup "lakehouse" = some v2 → cfg.lookup "table" = some v3 →
      generate_powerquery st cfg = .ok (fabricExpr v1 v2 v3)) := by
  by_cases h1 : st = "excel"
  · subst h1
    refine ⟨fun hmem => absurd (by decide) hmem, fun tag htag => ?_, ?_, ?_, ?_, ?_⟩
    · exfalso
      rcases hu : cfg.lookup "url" with _ | u <;>
        rcases hsh : cfg.lookup "sheet" with _ | sh <;>
          simp [generate_powerquery, getKey, Bind.bind, Except.bind, Pure.pure, Except.pure, hu, hsh] at htag
    · intro _ v1 v2 hu hsh
      simp [generate_powerquery, getKey, Bind.bind, Except.bind, Pure.pure, Except.pure, hu, hsh]
    · exact fun h => absurd h (by decide)
    · exact fun h => absurd h (by decide)
    · exact fun h => absurd h (by decide)
  by_cases h2 : st = "sharepoint"
  · subst h2
    refine ⟨fun hmem => absurd (by decide) hmem, fun tag htag => ?_, ?_, ?_, ?_, ?_⟩
    · exfalso
      rcases ha : cfg.lookup "site" with _ | a <;>
        rcases hb : cfg.lookup "file" with _ | b <;>
          rcases hc : cfg.lookup "sheet" with _ | c <;>
            simp [generate_powerquery, getKey, Bind.bind, Except.bind, Pure.pure, Except.pure, ha, hb, hc] at htag
    · exact fun h => absurd h (by decide)
    · intro _ v1 v2 v3 ha hb hc
      simp [generate_powerquery, getKey, Bind.bind, Except.bind, Pure.pure, Except.pure, ha, hb, hc]
    · exact fun h => absurd h (by decide)
    · exact fun h => absurd h (by decide)
  by_cases h3 : st = "sql"
  · subst h3
    refine ⟨fun hmem => absurd (by decide) hmem, fun tag htag => ?_, ?_, ?_, ?_, ?_⟩
    · exfalso
      rcases ha : cfg.lookup "server" with _ | a <;>
        rcases hb : cfg.lookup "database" with _ | b <;>
          rcases hc : cfg.lookup "schema" with _ | c <;>
            rcases hd : cfg.lookup "table" with _ | d <;>
              simp [generate_powerquery, getKey, Bind.bind, Except.bind, Pure.pure, Except.pure, ha, hb, hc, hd] at htag
    · exact fun h => absurd h (by decide)
    · exact fun h => absurd h (by decide)
    · intro _ v1 v2 v3 v4 ha hb hc hd
      simp [generate_powerquery, getKey, Bind.bind, Except.bind, Pure.pure, Except.pure, ha, hb, hc, hd]
    · exact fun h => absurd h (by decide)
  by_cases h4 : st = "fabric"
  · subst h4
    refine ⟨fun hmem => absurd (by decide) hmem, fun tag htag => ?_, ?_, ?_, ?_, ?_⟩
    · exfalso
      rcases ha : cfg.lookup "workspace" with _ | a <;>
        rcases hb : cfg.lookup "lakehouse" with _ | b <;>
          rcases hc : cfg.lookup "table" with _ | c <;>
            simp [generate_powerquery, getKey, Bind.bind, Except.bind, Pure.pure, Except.pure, ha, hb, hc] at htag
    · exact fun h => absurd h (by decide)
    · exact fun h => absurd h (by decide)
    · exact fun h => absurd h (by decide)
    · intro _ v1 v2 v3 ha hb hc
      simp [generate_powerquery, getKey, Bind.bind, Except.bind, Pure.pure, Except.pure, ha, hb, hc]
  · have hgen : generate_powerquery st cfg = .error (.unsupportedSourceType st) := by
      simp [generate_powerquery, h1, h2, h3, h4]
    refine ⟨fun _ => hgen, fun tag htag => ?_, fun h => absurd h h1, fun h => absurd h h2,
      fun h => absurd h h3, fun h => absurd h h4⟩
    rw [hgen] at htag
    injection htag with h
    injection h with h
    exact ⟨by simp [h1, h2, h3, h4], h.symm⟩

/-- C8 witness: the validation theorem at the concrete tags "unknown" and
"excel" with a complete excel config. -/
theorem c8_powerquery_validation_witness :
    generate_powerquery "unknown" [] = .error (.unsupportedSourceType "unknown") ∧
      generate_powerquery "excel" [("url", "https://x"), ("sheet", "Sheet1")] =
        .ok (excelExpr "https://x" "Sheet1") :=
  ⟨(c8_powerquery_validation "unknown" []).1 (by decide),
   ((c8_powerquery_validation "excel" [("url", "https://x"), ("sheet", "Sheet1")]).2.2.1
     rfl "https://x" "Sheet1" rfl rfl)⟩

theorem genVisuals_shape (dataset_name : String) (u : Nat → String) (l : List Visual) :
    ∀ k, ((genVisuals dataset_name u k l).1.map
        (fun v => (v.visualType, v.title, v.fromEntity, v.select))) =
      ((l.filter (fun v => !v.fields.isEmpty)).map
        (fun v => ((make_visual v dataset_name "").visualType, (make_visual v dataset_name "").title,
          (make_visual v dataset_name "").fromEntity, (make_visual v dataset_name "").select))) := by
  induction l with
  | nil => intro k; rfl
  | cons v vs ih =>
    intro k
    by_cases hv : v.fields.isEmpty = true
    · rw [genVisuals, if_pos hv]
      simpa [hv] using ih k
    · rw [genVisuals, if_neg hv]
      simp only [List.filter_cons, hv, Bool.not_false, List.map_cons, if_pos]
      exact congrArg₂ List.cons rfl (ih (k + 1))

theorem genVisuals_count (dataset_name : String) (u : Nat → String) (l : List Visual) :
    ∀ k, (genVisuals dataset_name u k l).1.length =
      (l.filter (fun v => !v.fields.isEmpty)).length := by
  induction l with
  | nil => intro k; rfl
  | cons v vs ih =>
    intro k
    by_cases hv : v.fields.isEmpty = true
    · rw [genVisuals, if_pos hv]
      simpa [hv] using ih k
    · rw [genVisuals, if_neg hv]
      simp only [List.filter_cons, hv, Bool.not_false, List.length_cons, if_pos,
        List.length_cons]
      exact congrArg Nat.succ (ih (k + 1))

theorem genSections_shape (dataset_name : String) (u : Nat → String) (ps : List Page) :
    ∀ k, (genSections dataset_name u k ps).map
        (fun s => (s.displayName, s.visualContainers.length)) =
      ps.map (fun p => (p.name, (p.visuals.filter (fun v => !v.fields.isEmpty)).length)) := by
  induction ps with
  | nil => intro k; rfl
  | cons p ps ih =>
    intro k
    rw [genSections]
    simp only [List.map_cons]
    exact congrArg₂ List.cons
      (by rw [genVisuals_count dataset_name u p.visuals (k + 1)])
      (ih _)

/-- C7: the layout projector never drops a page — each input page yields
exactly one section, in order, with the page's name as display name — and
a page's container count equals the number of its visuals with a non-empty
field list: a visual is dropped iff its field list is empty, and every
visual with at least one field yields exactly one container. -/
theorem c7_layout_projection (vs : VisualSpec) (dataset_name : String) (u : Nat → String) :
    (generate_report_json vs dataset_name u).sections.map
        (fun s => (s.displayName, s.visualContainers.length)) =
      vs.pages.map (fun p => (p.name, (p.visuals.filter (fun v => !v.fields.isEmpty)).length)) :=
  genSections_shape dataset_name u vs.pages 0

theorem genVisuals_eraseId (ds : String) (u1 u2 : Nat → String) (l : List Visual) :
    ∀ k1 k2, (genVisuals ds u1 k1 l).1.map LVisual.eraseId =
      (genVisuals ds u2 k2 l).1.map LVisual.eraseId := by
  induction l with
  | nil => intro k1 k2; rfl
  | cons v vs ih =>
    intro k1 k2
    by_cases hv : v.fields.isEmpty = true
    · rw [genVisuals, genVisuals, if_pos hv, if_pos hv]
      exact ih k1 k2
    · rw [genVisuals, genVisuals, if_neg hv, if_neg hv]
      simp only [List.map_cons]
      exact congrArg₂ List.cons rfl (ih (k1 + 1) (k2 + 1))

theorem genSections_eraseIds (ds : String) (u1 u2 : Nat → String) (ps : List Page) :
    ∀ k1 k2, (genSections ds u1 k1 ps).map Section.eraseIds =
      (genSections ds u2 k2 ps).map Section.eraseIds := by
  induction ps with
  | nil => intro k1 k2; rfl
  | cons p ps ih =>
    intro k1 k2
    rw [genSections, genSections]
    simp only [List.map_cons]
    refine congrArg₂ List.cons ?_ (ih _ _)
    show Section.mk "" p.name ((genVisuals ds u1 (k1 + 1) p.visuals).1.map LVisual.eraseId) =
      Section.mk "" p.name ((genVisuals ds u2 (k2 + 1) p.visuals).1.map LVisual.eraseId)
    rw [genVisuals_eraseId ds u1 u2 p.visuals (k1 + 1) (k2 + 1)]

/-- C1 counterexample: two pipeline runs over the same ParsedMetadata (one
worksheet, no visuals) with different uuid4 draws produce different layout
documents; the layout document has no generatedAt field at all, so the
exclusion does not mask the difference (the synthesized section ids do). -/
theorem c1_layout_not_identical :
    generate_report_json
        (build_visual_spec (⟨[], [], [⟨"P1", []⟩], []⟩ : ParsedMeta) "report" "t1")
        "ds" (fun _ => "uuid-a") ≠
      generate_report_json
        (build_visual_spec (⟨[], [], [⟨"P1", []⟩], []⟩ : ParsedMeta) "report" "t2")
        "ds" (fun _ => "uuid-b") := by
  decide

/-- C1 (amended): for a fixed ParsedMetadata, report id and source config,
two pipeline runs produce identical ModelSpec documents once generatedAt is
excluded, and identical layout documents once the per-run synthesized
section/visual uuid identifiers are excluded (generatedAt does not occur in
the layout document). -/
theorem c1_pipeline_deterministic_mod_ids (pm : ParsedMeta) (rid g1 g2 ds : String)
    (u1 u2 : Nat → String) :
    (build_model_spec pm rid g1).eraseGeneratedAt =
        (build_model_spec pm rid g2).eraseGeneratedAt ∧
      (generate_report_json (build_visual_spec pm rid g1) ds u1).eraseIds =
        (generate_report_json (build_visual_spec pm rid g2) ds u2).eraseIds := by
  refine ⟨rfl, ?_⟩
  show Report.mk "1.13.0" 1 ((genSections ds u1 0 pm.worksheets).map Section.eraseIds) =
    Report.mk "1.13.0" 1 ((genSections ds u2 0 pm.worksheets).map Section.eraseIds)
  rw [genSections_eraseIds ds u1 u2 pm.worksheets 0 0]

theorem listPre_self_append (m s : List Char) : listPre m (m ++ s) = true := by
  induction m with
  | nil => rfl
  | cons c cs ih => simp [listPre, ih]

theorem listSub_self_append (m s : List Char) : listSub m (m ++ s) = true := by
  cases m with
  | nil =>
    cases s with
    | nil => rfl
    | cons c cs => rfl
  | cons c cs =>
    show listSub (c :: cs) (c :: (cs ++ s)) = true
    rw [listSub]
    have h : listPre (c :: cs) (c :: (cs ++ s)) = true := listPre_self_append (c :: cs) s
    rw [h, Bool.true_or]

theorem listSub_cons_append {m x : List Char} (a : List Char) (h : listSub m x = true) :
    listSub m (a ++ x) = true := by
  induction a with
  | nil => exact h
  | cons c cs ih =>
    show listSub m (c :: (cs ++ x)) = true
    rw [listSub, ih, Bool.or_true]

/-- C2 counterexample: a relationship whose four endpoint fields are all
non-null (from_table is the empty string) and whose two table names both
occur among the ModelSpec table names is nevertheless skipped with the
missing-elements comment, because the code tests Python truthiness, not
nullness. -/
theorem c2_empty_name_skipped :
    (⟨some "", some "c", some "T", some "d", none⟩ : Rel).from_table ≠ none ∧
      (⟨some "", some "c", some "T", some "d", none⟩ : Rel).from_column ≠ none ∧
      (⟨some "", some "c", some "T", some "d", none⟩ : Rel).to_table ≠ none ∧
      (⟨some "", some "c", some "T", some "d", none⟩ : Rel).to_column ≠ none ∧
      "" ∈ (["", "T"] : List String) ∧ "T" ∈ (["", "T"] : List String) ∧
      gen_relationship_block ⟨some "", some "c", some "T", some "d", none⟩ ["", "T"] =
        skipMissingElems ∧
      strContainsB "Model.AddRelationship"
        (gen_relationship_block ⟨some "", some "c", some "T", some "d", none⟩ ["", "T"]) =
        false := by
  decide

/-- C2 (amended): a relationship-creation statement appears in the block
emitted for a record iff all four endpoint fields are non-null AND
non-empty and both endpoint table names occur among the ModelSpec table
names; in every other case the block is exactly one of the two fixed skip
comments (which contain no creation statement). -/
theorem c2_relationship_materialization (rel : Rel) (tns : List String) :
    (strContainsB "Model.AddRelationship" (gen_relationship_block rel tns) = true ↔
      (truthyOpt rel.from_table = true ∧ truthyOpt rel.from_column = true ∧
        truthyOpt rel.to_table = true ∧ truthyOpt rel.to_column = true ∧
        rel.from_table.getD "" ∈ tns ∧ rel.to_table.getD "" ∈ tns)) ∧
    (gen_relationship_block rel tns = skipMissingElems ∨
      gen_relationship_block rel tns = skipTableNotFound ∨
      strContainsB "Model.AddRelationship" (gen_relationship_block rel tns) = true) := by
  by_cases hc : truthyOpt rel.from_table = true ∧ truthyOpt rel.from_column = true ∧
      truthyOpt rel.to_table = true ∧ truthyOpt rel.to_column = true
  · by_cases hm : rel.from_table.getD "" ∉ tns ∨ rel.to_table.getD "" ∉ tns
    · have hout : gen_relationship_block rel tns = skipTableNotFound := by
        rw [gen_relationship_block, if_neg (not_not_intro hc), if_pos hm]
      rw [hout]
      constructor
      · constructor
        · intro habs
          exact absurd habs (by decide)
        · rintro ⟨_, _, _, _, hf, ht⟩
          rcases hm with hm | hm
          · exact absurd hf hm
          · exact absurd ht hm
      · exact Or.inr (Or.inl rfl)
    · have hmem : rel.from_table.getD "" ∈ tns ∧ rel.to_table.getD "" ∈ tns := by
        rcases not_or.mp hm with ⟨h1, h2⟩
        exact ⟨not_not.mp h1, not_not.mp h2⟩
      have hout : gen_relationship_block rel tns =
          "// ---- Relationship: " ++ rel.from_table.getD "" ++ "." ++
            rel.from_column.getD "" ++ " → " ++ rel.to_table.getD "" ++ "." ++
            rel.to_column.getD "" ++ " ----\n" ++ "Model.AddRelationship" ++ "(tbl_" ++
            safe_id (rel.from_table.getD "") ++ ", \"" ++ rel.from_column.getD "" ++
            "\", tbl_" ++ safe_id (rel.to_table.getD "") ++ ", \"" ++
            rel.to_column.getD "" ++ "\");" ++ "\n" := by
        rw [gen_relationship_block, if_neg (not_not_intro hc), if_neg hm]
      have hsub : strContainsB "Model.AddRelationship" (gen_relationship_block rel tns) =
          true := by
        rw [hout, strContainsB]
        simp only [String.data_append, List.append_assoc]
        refine listSub_cons_append _ (listSub_cons_append _ (listSub_cons_append _
          (listSub_cons_append _ (listSub_cons_append _ (listSub_cons_append _
            (listSub_cons_append _ (listSub_cons_append _ (listSub_cons_append _
              (listSub_self_append _ _)))))))))
      refine ⟨⟨fun _ => ⟨hc.1, hc.2.1, hc.2.2.1, hc.2.2.2, hmem.1, hmem.2⟩, fun _ => hsub⟩,
        Or.inr (Or.inr hsub)⟩
  · have hout : gen_relationship_block rel tns = skipMissingElems := by
      rw [gen_relationship_block, if_pos hc]
    rw [hout]
    constructor
    · constructor
      · intro habs
        exact absurd habs (by decide)
      · rintro ⟨h1, h2, h3, h4, _, _⟩
        exact absurd ⟨h1, h2, h3, h4⟩ hc
    · exact Or.inl rfl

/-- C2 witness: the materialization criterion at a concrete valid
relationship between tables A and B. -/
theorem c2_relationship_materialization_witness :
    strContainsB "Model.AddRelationship"
      (gen_relationship_block ⟨some "A", some "id", some "B", some "aid", none⟩ ["A", "B"]) =
      true :=
  ((c2_relationship_materialization ⟨some "A", some "id", some "B", some "aid", none⟩
    ["A", "B"]).1).mpr (by decide)

/-- C5 (code bug): for a ParsedMetadata with one measure, the ModelSpec
dict written by `generate_artifacts` carries no measures key, so the
authoring script generated from it contains zero measure blocks (no
AddMeasure / find-or-create text at all) — although the script generator
itself emits one find-or-create block per measure whenever the document
does list measures (last conjunct), i.e. its measure support is rendered
dead by the artifact generator dropping the measures from the ModelSpec. -/
theorem c5_measure_blocks_missing :
    (⟨[⟨some "Sales", [⟨some "Amount", some "float"⟩]⟩], [], [],
        [⟨some "Total", some "SUM([Amount])"⟩]⟩ : ParsedMeta).measures ≠ [] ∧
      (modelSpecToDoc (build_model_spec
        (⟨[⟨some "Sales", [⟨some "Amount", some "float"⟩]⟩], [], [],
            [⟨some "Total", some "SUM([Amount])"⟩]⟩ : ParsedMeta) "report" "T0")).measures =
        [] ∧
      strContainsB "AddMeasure"
        (generate_script_text
          (modelSpecToDoc (build_model_spec
            (⟨[⟨some "Sales", [⟨some "Amount", some "float"⟩]⟩], [], [],
                [⟨some "Total", some "SUM([Amount])"⟩]⟩ : ParsedMeta) "report" "T0"))
          "LOG\n\x7b\x7bTABLES\x7d\x7d\n\x7b\x7bMEASURES\x7d\x7d\n\x7b\x7bRELATIONSHIPS\x7d\x7d\n") =
        false ∧
      strContainsB "AddMeasure"
        (generate_script_text
          (⟨"report", [], [⟨"Total", some "SUM([Amount])"⟩], []⟩ : MsDoc)
          "LOG\n\x7b\x7bTABLES\x7d\x7d\n\x7b\x7bMEASURES\x7d\x7d\n\x7b\x7bRELATIONSHIPS\x7d\x7d\n") =
        true := by
  decide

/-- C6 counterexample: the tree holds (i) a column with an explicit
table attribute "T" but no datasource ancestor — the code ignores the
attribute (it is consulted only when a datasource ancestor exists) and
buckets the column under "_unnamed" — and (ii) a column inside two nested
datasources Outer/Inner whose nearest ancestor datasource is "Inner", yet
the code uses the first node of the document-ordered ancestor axis, the
outermost "Outer". -/
theorem c6_ownership_counterexample :
    (XNode.node "column" [("table", "T"), ("name", "c1")] none []).get "table" = some "T" ∧
      extract_tables_and_columns
        (.node "workbook" [] none
          [.node "column" [("table", "T"), ("name", "c1")] none [],
           .node "datasource" [("name", "Outer")] none
             [.node "datasource" [("name", "Inner")] none
               [.node "column" [("name", "c2")] none []]]]) =
        [⟨"_unnamed", [("c1", none)]⟩, ⟨"Outer", [("c2", none)]⟩] ∧
      ((extract_tables_and_columns
        (.node "workbook" [] none
          [.node "column" [("table", "T"), ("name", "c1")] none [],
           .node "datasource" [("name", "Outer")] none
             [.node "datasource" [("name", "Inner")] none
               [.node "column" [("name", "c2")] none []]]])).map TableRec.name).contains
          "T" = false ∧
      ((extract_tables_and_columns
        (.node "workbook" [] none
          [.node "column" [("table", "T"), ("name", "c1")] none [],
           .node "datasource" [("name", "Outer")] none
             [.node "datasource" [("name", "Inner")] none
               [.node "column" [("name", "c2")] none []]]])).map TableRec.name).contains
          "Inner" = false := by
  decide

theorem childDs_head (anc : List XNode) (self : XNode) (ds : Option XNode)
    (h : ds = (anc.filter (fun m => isDsTag m.tag)).head?) :
    childDs ds self = ((anc ++ [self]).filter (fun m => isDsTag m.tag)).head? := by
  rw [List.filter_append]
  cases hfa : anc.filter (fun m => isDsTag m.tag) with
  | nil =>
    rw [hfa] at h
    subst h
    show (if isDsTag self.tag then some self else none) =
      (List.filter (fun m => isDsTag m.tag) [self]).head?
    by_cases hself : isDsTag self.tag = true
    · rw [if_pos hself]
      simp [List.filter, hself]
    · rw [if_neg hself]
      simp only [Bool.not_eq_true] at hself
      simp [List.filter, hself]
  | cons d rest =>
    rw [hfa] at h
    subst h
    rfl

mutual

theorem collectCols_anc (n : XNode) (anc : List XNode) (ds : Option XNode)
    (h : ds = (anc.filter (fun m => isDsTag m.tag)).head?) :
    collectCols ds n = (colsWithAnc anc n).filterMap
      (fun p => mkColEntry ((p.1.filter (fun m => isDsTag m.tag)).head?) p.2) := by
  cases n with
  | node t a x cs =>
    rw [collectCols, colsWithAnc, List.filterMap_append]
    refine congrArg₂ List.append ?_ ?_
    · by_cases ht : isColTag t = true
      · rw [if_pos ht, if_pos ht]
        simp only [List.filterMap_cons]
        rw [← h]
        cases mkColEntry ds (XNode.node t a x cs) <;> rfl
      · rw [if_neg ht, if_neg ht]
        rfl
    · exact collectColsL_anc cs (anc ++ [XNode.node t a x cs]) (childDs ds (XNode.node t a x cs))
        (childDs_head anc (XNode.node t a x cs) ds h)

theorem collectColsL_anc (l : List XNode) (anc : List XNode) (ds : Option XNode)
    (h : ds = (anc.filter (fun m => isDsTag m.tag)).head?) :
    collectColsL ds l = (colsWithAncL anc l).filterMap
      (fun p => mkColEntry ((p.1.filter (fun m => isDsTag m.tag)).head?) p.2) := by
  cases l with
  | nil => rfl
  | cons c cs =>
    rw [collectColsL, colsWithAncL, List.filterMap_append]
    exact congrArg₂ List.append (collectCols_anc c anc ds h) (collectColsL_anc cs anc ds h)

end

/-- C6 (amended): pass 1 of table/column extraction computes, for every
column-like proper descendant of the root, exactly the entry determined by
the column node together with the outermost datasource among its
ancestors: when at least one datasource ancestor exists the owning table is
the column's truthy table attribute, else that outermost ancestor's truthy
name, else its truthy caption, else the "_unnamed" sentinel; when no
datasource ancestor exists the column goes to the sentinel even if it
carries an explicit table attribute.  Columns whose table is unresolvable
are kept under the sentinel rather than discarded (only columns with no
resolvable name are dropped, by `mkColEntry`). -/
theorem c6_ownership_outermost_datasource (root : XNode) :
    collectColsL (childDs none root) root.children =
      (colsWithAncL [root] root.children).filterMap
        (fun p => mkColEntry ((p.1.filter (fun m => isDsTag m.tag)).head?) p.2) := by
  refine collectColsL_anc root.children [root] (childDs none root) ?_
  cases hroot : isDsTag root.tag with
  | true =>
    show childDs none root = (List.filter (fun m => isDsTag m.tag) [root]).head?
    simp [childDs, List.filter, hroot]
  | false =>
    show childDs none root = (List.filter (fun m => isDsTag m.tag) [root]).head?
    simp [childDs, List.filter, hroot]

end Tab2Pbi
